import Mathlib

/-
Verification of the session/cart subsystem of the demo marketplace backend
(src/main.py) against its natural-language specification.

The Python program is shallowly embedded:
* Python dicts become association lists (`List (key × value)`); insertion
  updates in place or appends, deletion removes the key, mirroring dict
  semantics (dict keys are unique, so removing every occurrence of a key
  coincides with `del`).
* Python ints are `Int` (arbitrary precision, like Python).
* Raised exceptions (`KeyError`, `ValueError`, and the `AttributeError`
  produced by accessing `.price` on the pydantic model class) become an
  explicit `PyExc` value in an `Except`-shaped result.
* `os.urandom(8).hex()` (the session-token generator, external OS entropy)
  is modelled as a token stream `gen : Nat → String` giving the token
  produced at each loop iteration of `SessionHandler.login`.
-/

namespace Market

/-- Python exceptions that the embedded code can raise. -/
inductive PyExc where
  | keyError
  | valueError
  | attributeError
deriving DecidableEq, Repr

/-! ### Python dict model -/

/-- `d[key]` lookup on a Python dict modelled as an association list. -/
def dictLookup {α β : Type} [DecidableEq α] : List (α × β) → α → Option β
  | [], _ => none
  | (k0, v0) :: rest, key => if k0 = key then some v0 else dictLookup rest key

/-- `d[key] = val` on a Python dict: update in place if present, append if absent. -/
def dictSet {α β : Type} [DecidableEq α] : List (α × β) → α → β → List (α × β)
  | [], key, val => [(key, val)]
  | (k0, v0) :: rest, key, val =>
    if k0 = key then (key, val) :: rest else (k0, v0) :: dictSet rest key val

/-- `del d[key]` on a Python dict. Dict keys are unique, so removing every
occurrence of the key coincides with deleting the single entry. -/
def dictErase {α β : Type} [DecidableEq α] : List (α × β) → α → List (α × β)
  | [], _ => []
  | (k0, v0) :: rest, key =>
    if k0 = key then dictErase rest key else (k0, v0) :: dictErase rest key

theorem dictLookup_dictSet_self {α β : Type} [DecidableEq α]
    (d : List (α × β)) (k : α) (v : β) :
    dictLookup (dictSet d k v) k = some v := by
  induction d with
  | nil => simp [dictSet, dictLookup]
  | cons kv rest ih =>
    obtain ⟨k0, v0⟩ := kv
    by_cases h : k0 = k
    · simp [dictSet, h, dictLookup]
    · simp [dictSet, h, dictLookup, ih]

theorem dictLookup_dictSet_ne {α β : Type} [DecidableEq α]
    (d : List (α × β)) (k : α) (v : β) (x : α) (hx : x ≠ k) :
    dictLookup (dictSet d k v) x = dictLookup d x := by
  induction d with
  | nil => simp [dictSet, dictLookup, Ne.symm hx]
  | cons kv rest ih =>
    obtain ⟨k0, v0⟩ := kv
    by_cases h : k0 = k
    · subst h
      simp [dictSet, dictLookup, Ne.symm hx]
    · simp only [dictSet, if_neg h, dictLookup]
      by_cases h0 : k0 = x
      · simp [h0]
      · simp [h0, ih]

theorem dictLookup_dictErase_self {α β : Type} [DecidableEq α]
    (d : List (α × β)) (k : α) :
    dictLookup (dictErase d k) k = none := by
  induction d with
  | nil => simp [dictErase, dictLookup]
  | cons kv rest ih =>
    obtain ⟨k0, v0⟩ := kv
    by_cases h : k0 = k
    · simp [dictErase, h, ih]
    · simp [dictErase, h, dictLookup, ih]

theorem dictLookup_dictErase_ne {α β : Type} [DecidableEq α]
    (d : List (α × β)) (k : α) (x : α) (hx : x ≠ k) :
    dictLookup (dictErase d k) x = dictLookup d x := by
  induction d with
  | nil => simp [dictErase]
  | cons kv rest ih =>
    obtain ⟨k0, v0⟩ := kv
    by_cases h : k0 = k
    · subst h
      simp [dictErase, dictLookup, Ne.symm hx, ih]
    · simp only [dictErase, if_neg h, dictLookup]
      by_cases h0 : k0 = x
      · simp [h0]
      · simp [h0, ih]

/-! ### Cart (src/main.py lines 8-74)

`Cart.products` is a dict mapping product ID to quantity. -/

/-- The `Cart.products` dict: product ID → quantity. -/
abbrev CartMap := List (Int × Int)

/-- `Cart.addItem` (src/main.py lines 26-37):
`if id not in self.products: self.products[id] = 0` then
`self.products[id] += num`.  The read in `+=` always succeeds (the key was
just initialised if absent), hence the `getD 0` never actually defaults. -/
def addItem (c : CartMap) (id num : Int) : CartMap :=
  let c1 := if dictLookup c id = none then dictSet c id 0 else c
  dictSet c1 id ((dictLookup c1 id).getD 0 + num)

/-- `Cart.removeItem` (src/main.py lines 39-62).  Returns the outcome
(`KeyError` for an unknown id, `ValueError` when more is removed than is
present) together with the post-state of the in-place-mutated dict; the dict
is only mutated after both checks pass. -/
def removeItem (c : CartMap) (id num : Int) : Except PyExc Unit × CartMap :=
  match dictLookup c id with
  | none => (Except.error PyExc.keyError, c)
  | some q =>
    if q < num then (Except.error PyExc.valueError, c)
    else
      let c1 := dictSet c id (q - num)
      if q - num = 0 then (Except.ok (), dictErase c1 id) else (Except.ok (), c1)

/-- `Cart.getCart` (src/main.py lines 64-74): builds the `CartSchema.items`
list by iterating `self.products.items()` in dict order, which on the
association-list model is the list itself. -/
def getCart (c : CartMap) : List (Int × Int) := c

theorem dictLookup_addItem_self (c : CartMap) (id num : Int) :
    dictLookup (addItem c id num) id = some ((dictLookup c id).getD 0 + num) := by
  unfold addItem
  cases hq : dictLookup c id with
  | none => simp [hq, dictLookup_dictSet_self]
  | some q => simp [hq, dictLookup_dictSet_self]

theorem dictLookup_addItem_ne (c : CartMap) (id num x : Int) (hx : x ≠ id) :
    dictLookup (addItem c id num) x = dictLookup c x := by
  unfold addItem
  cases hq : dictLookup c id with
  | none =>
    simp [hq, dictLookup_dictSet_ne _ _ _ _ hx]
  | some q =>
    simp [hq, dictLookup_dictSet_ne _ _ _ _ hx]

theorem removeItem_ok_iff (c : CartMap) (id num : Int) :
    (removeItem c id num).1 = Except.ok () ↔
      ∃ q, dictLookup c id = some q ∧ num ≤ q := by
  unfold removeItem
  cases hq : dictLookup c id with
  | none => simp
  | some q =>
    by_cases hlt : q < num
    · simp only [if_pos hlt]
      constructor
      · intro h
        exact absurd h (by simp)
      · rintro ⟨q3, hq3, hle⟩
        cases hq3
        exact absurd hlt (not_lt.mpr hle)
    · by_cases h0 : q - num = 0 <;>
        simp [hlt, h0, not_lt.mp hlt]

theorem removeItem_error_post (c : CartMap) (id num : Int) (e : PyExc)
    (h : (removeItem c id num).1 = Except.error e) :
    (removeItem c id num).2 = c := by
  cases hq : dictLookup c id with
  | none =>
    unfold removeItem
    rw [hq]
  | some q =>
    unfold removeItem
    rw [hq]
    by_cases hlt : q < num
    · simp [hlt]
    · exfalso
      unfold removeItem at h
      rw [hq] at h
      by_cases h0 : q - num = 0 <;> simp [hlt, h0] at h

theorem removeItem_success (c : CartMap) (id num q : Int)
    (hq : dictLookup c id = some q) (hle : num ≤ q) :
    (removeItem c id num).1 = Except.ok () ∧
      dictLookup (removeItem c id num).2 id
        = (if q - num = 0 then none else some (q - num)) ∧
      ∀ x, x ≠ id → dictLookup (removeItem c id num).2 x = dictLookup c x := by
  unfold removeItem
  rw [hq]
  have hlt : ¬ q < num := not_lt.mpr hle
  by_cases h0 : q - num = 0
  · refine ⟨by simp [hlt, h0], ?_, ?_⟩
    · simp [hlt, h0, dictLookup_dictErase_self]
    · intro x hx
      simp [hlt, h0, dictLookup_dictErase_ne _ _ _ hx,
        dictLookup_dictSet_ne _ _ _ _ hx]
  · refine ⟨by simp [hlt, h0], ?_, ?_⟩
    · simp [hlt, h0, dictLookup_dictSet_self]
    · intro x hx
      simp [hlt, h0, dictLookup_dictSet_ne _ _ _ _ hx]

/-! ### Sequences of cart operations (for the cart invariant) -/

/-- One call on a `Cart`: `addItem id num` or `removeItem id num`. -/
inductive CartOp where
  | add (id num : Int)
  | remove (id num : Int)
deriving DecidableEq, Repr

/-- Run a sequence of cart calls from a given cart state.  A `remove` that
raises makes the whole sequence invalid (`none`): the claims quantify over
sequences of *successful* `removeItem` calls. -/
def runOps : CartMap → List CartOp → Option CartMap
  | c, [] => some c
  | c, CartOp.add id num :: rest => runOps (addItem c id num) rest
  | c, CartOp.remove id num :: rest =>
    match removeItem c id num with
    | (Except.ok _, c2) => runOps c2 rest
    | (Except.error _, _) => none

/-- Every call in the sequence has `count ≥ 0` (the quantity bound stated by
claim C1). -/
def opsNonneg : List CartOp → Bool
  | [] => true
  | CartOp.add _ num :: rest => decide (0 ≤ num) && opsNonneg rest
  | CartOp.remove _ num :: rest => decide (0 ≤ num) && opsNonneg rest

/-- Every `addItem` has `count ≥ 1` and every `removeItem` has `count ≥ 0`
(the strengthening that actually preserves the invariant). -/
def opsPos : List CartOp → Bool
  | [] => true
  | CartOp.add _ num :: rest => decide (1 ≤ num) && opsPos rest
  | CartOp.remove _ num :: rest => decide (0 ≤ num) && opsPos rest

/-- The spec's cart invariant: every stored quantity is strictly positive. -/
def goodCart (c : CartMap) : Prop := ∀ p q, dictLookup c p = some q → 0 < q

/-- Decidable check that some entry of the cart has quantity ≤ 0. -/
def hasNonpos (c : CartMap) : Bool := c.any (fun kv => decide (kv.2 ≤ 0))

theorem goodCart_addItem (c : CartMap) (id num : Int) (hc : goodCart c)
    (hnum : 1 ≤ num) : goodCart (addItem c id num) := by
  intro p q hpq
  by_cases hp : p = id
  · subst hp
    rw [dictLookup_addItem_self] at hpq
    cases hq0 : dictLookup c p with
    | none =>
      rw [hq0] at hpq
      simp at hpq
      omega
    | some q0 =>
      have h0 := hc p q0 hq0
      rw [hq0] at hpq
      simp at hpq
      omega
  · rw [dictLookup_addItem_ne _ _ _ _ hp] at hpq
    exact hc p q hpq

theorem goodCart_removeItem (c : CartMap) (id num : Int) (hc : goodCart c)
    (hok : (removeItem c id num).1 = Except.ok ()) :
    goodCart (removeItem c id num).2 := by
  obtain ⟨q0, hq0, hle⟩ := (removeItem_ok_iff c id num).mp hok
  obtain ⟨-, hself, hne⟩ := removeItem_success c id num q0 hq0 hle
  intro p q hpq
  by_cases hp : p = id
  · subst hp
    rw [hself] at hpq
    by_cases h0 : q0 - num = 0
    · rw [if_pos h0] at hpq
      simp at hpq
    · rw [if_neg h0] at hpq
      simp at hpq
      omega
  · rw [hne p hp] at hpq
    exact hc p q hpq

theorem runOps_goodCart :
    ∀ (ops : List CartOp) (c0 c : CartMap), goodCart c0 → opsPos ops = true →
      runOps c0 ops = some c → goodCart c := by
  intro ops
  induction ops with
  | nil =>
    intro c0 c h _ hrun
    cases hrun
    exact h
  | cons op rest ih =>
    cases op with
    | add id num =>
      intro c0 c h hops hrun
      simp only [opsPos, Bool.and_eq_true, decide_eq_true_eq] at hops
      simp only [runOps] at hrun
      exact ih _ _ (goodCart_addItem _ _ _ h hops.1) hops.2 hrun
    | remove id num =>
      intro c0 c h hops hrun
      simp only [opsPos, Bool.and_eq_true, decide_eq_true_eq] at hops
      simp only [runOps] at hrun
      split at hrun
      · rename_i u c2 heq
        have hok : (removeItem c0 id num).1 = Except.ok () := by
          rw [heq]
        have h2 := goodCart_removeItem c0 id num h hok
        rw [heq] at h2
        exact ih _ _ h2 hops.2 hrun
      · simp at hrun

/-- Claim C1 (counterexample): the claim as stated is false.  `addItem(5, 0)`
with `count = 0 ≥ 0` on a fresh cart first initialises `products[5] = 0` and
then adds 0, leaving a zero-quantity entry in the mapping (src/main.py
lines 34-37 never remove the initialised zero entry). -/
theorem addItem_zero_counterexample :
    opsNonneg [CartOp.add 5 0] = true ∧
    runOps [] [CartOp.add 5 0] = some [(5, 0)] ∧
    hasNonpos [(5, 0)] = true ∧
    dictLookup [(5, 0)] 5 = some 0 := by decide

/-- Claim C1 (amended): for every finite sequence of `addItem` calls with
`count ≥ 1` and successful `removeItem` calls with `count ≥ 0`, starting from
a freshly constructed Cart, the resulting products mapping never contains an
entry whose stored quantity is zero or negative. -/
theorem cart_invariant_positive (ops : List CartOp) (c : CartMap)
    (hops : opsPos ops = true) (hrun : runOps [] ops = some c) : goodCart c :=
  runOps_goodCart ops [] c (fun p q h => by simp [dictLookup] at h) hops hrun

/-- Witness for `cart_invariant_positive`: the concrete sequence
`addItem(5, 2); removeItem(5, 1)` is legal, runs to the cart `{5: 1}`, and the
invariant holds there. -/
theorem cart_invariant_positive_witness :
    opsPos [CartOp.add 5 2, CartOp.remove 5 1] = true ∧
    runOps [] [CartOp.add 5 2, CartOp.remove 5 1] = some [(5, 1)] ∧
    goodCart [(5, 1)] :=
  ⟨by decide, by decide,
    cart_invariant_positive [CartOp.add 5 2, CartOp.remove 5 1] [(5, 1)]
      (by decide) (by decide)⟩

/-- Claim C5: for every cart state and `count ≥ 0`, `removeItem` fails with
`KeyError` (UnknownProduct) iff the product is absent, fails with
`ValueError` (InsufficientQuantity) iff it is present with stored quantity
less than `count`; on either failure the mapping is unchanged; on success the
stored quantity is decremented by `count` and the entry is deleted exactly
when the result is 0, all other entries untouched. -/
theorem removeItem_spec (c : CartMap) (id num : Int) (hnum : 0 ≤ num) :
    ((removeItem c id num).1 = Except.error PyExc.keyError ↔
      dictLookup c id = none) ∧
    ((removeItem c id num).1 = Except.error PyExc.valueError ↔
      ∃ q, dictLookup c id = some q ∧ q < num) ∧
    (∀ e, (removeItem c id num).1 = Except.error e → (removeItem c id num).2 = c) ∧
    (∀ q, dictLookup c id = some q → num ≤ q →
      (removeItem c id num).1 = Except.ok () ∧
      dictLookup (removeItem c id num).2 id
        = (if q - num = 0 then none else some (q - num)) ∧
      ∀ x, x ≠ id → dictLookup (removeItem c id num).2 x = dictLookup c x) := by
  refine ⟨?_, ?_, fun e h => removeItem_error_post c id num e h,
    fun q hq hle => removeItem_success c id num q hq hle⟩
  · cases hq : dictLookup c id with
    | none =>
      unfold removeItem
      rw [hq]
      simp
    | some q =>
      unfold removeItem
      rw [hq]
      by_cases hlt : q < num
      · simp [hlt]
      · by_cases h0 : q - num = 0 <;> simp [hlt, h0]
  · cases hq : dictLookup c id with
    | none =>
      unfold removeItem
      rw [hq]
      simp
    | some q =>
      unfold removeItem
      rw [hq]
      by_cases hlt : q < num
      · simp [hlt]
      · by_cases h0 : q - num = 0 <;> simp [hlt, h0, not_lt.mp hlt]

/-- Witness for `removeItem_spec`: on the cart `{5: 3}`, `removeItem(5, 2)`
succeeds and leaves quantity 1. -/
theorem removeItem_spec_witness :
    (0 : Int) ≤ 2 ∧
    (removeItem [(5, 3)] 5 2).1 = Except.ok () ∧
    dictLookup (removeItem [(5, 3)] 5 2).2 5 = some 1 := by
  refine ⟨by decide, ?_, ?_⟩
  · exact ((removeItem_spec [(5, 3)] 5 2 (by decide)).2.2.2 3 rfl (by decide)).1
  · exact ((removeItem_spec [(5, 3)] 5 2 (by decide)).2.2.2 3 rfl (by decide)).2.1

/-- Claim C8: whenever `removeItem(p, n)` with `n ≥ 0` succeeds, immediately
calling `addItem(p, n)` restores the products mapping exactly (as a key-value
mapping, which is what Python dict equality compares), including the case
where the removal deleted the entry. -/
theorem removeItem_addItem_roundtrip (c : CartMap) (id num : Int) (hnum : 0 ≤ num)
    (hok : (removeItem c id num).1 = Except.ok ()) :
    ∀ x, dictLookup (addItem (removeItem c id num).2 id num) x = dictLookup c x := by
  obtain ⟨q, hq, hle⟩ := (removeItem_ok_iff c id num).mp hok
  obtain ⟨-, hself, hne⟩ := removeItem_success c id num q hq hle
  intro x
  by_cases hx : x = id
  · subst hx
    rw [dictLookup_addItem_self, hself, hq]
    by_cases h0 : q - num = 0
    · rw [if_pos h0]
      simp only [Option.getD_none]
      congr 1
      omega
    · rw [if_neg h0]
      simp only [Option.getD_some]
      congr 1
      omega
  · rw [dictLookup_addItem_ne _ _ _ _ hx, hne x hx]

/-- Witness for `removeItem_addItem_roundtrip`: on the cart `{5: 2, 7: 1}`,
`removeItem(5, 2)` succeeds (deleting the entry) and `addItem(5, 2)` restores
the stored quantity of product 5. -/
theorem removeItem_addItem_roundtrip_witness :
    (0 : Int) ≤ 2 ∧
    (removeItem [(5, 2), (7, 1)] 5 2).1 = Except.ok () ∧
    dictLookup (addItem (removeItem [(5, 2), (7, 1)] 5 2).2 5 2) 5
      = dictLookup [(5, 2), (7, 1)] 5 :=
  ⟨by decide, rfl,
    removeItem_addItem_roundtrip [(5, 2), (7, 1)] 5 2 (by decide) rfl 5⟩

/-! ### Database schemas (src/main.py lines 77-101) -/

/-- `Database.ProductDatabaseSchema.Product` (src/main.py lines 81-85). -/
structure Product where
  id : Int := -1
  name : String := "unknown"
  category : Int := -1
  price : Int := 0
deriving DecidableEq, Repr

/-- `Database.CategoryDatabaseSchema.Category` (src/main.py lines 91-94). -/
structure Category where
  id : Int := -1
  name : String := "unknown"
deriving DecidableEq, Repr

/-- The value of the expression `self.ProductDatabaseSchema.Product` possibly
overwritten in `Database.getProduct`: either a product instance from the
database, or the pydantic model *class* itself (line 176 assigns the class,
not an instance — the parentheses are missing). -/
inductive ProductLookup where
  | instanceOf (p : Product)
  | classObject
deriving DecidableEq, Repr

/-- `Database.getProduct` (src/main.py lines 167-181): starts from the
`Product` class object and replaces it by the stored instance only when the
product ID is a key of `productDB.data`. -/
def getProduct (data : List (Int × Product)) (product : Int) : ProductLookup :=
  match dictLookup data product with
  | some p => ProductLookup.instanceOf p
  | none => ProductLookup.classObject

/-- Accessing `.price` on the result of `getProduct` (src/main.py line 396).
On an instance this reads the field; on the model class itself Python raises
`AttributeError` (pydantic removes field names from the class namespace). -/
def priceAttr : ProductLookup → Except PyExc Int
  | ProductLookup.instanceOf p => Except.ok p.price
  | ProductLookup.classObject => Except.error PyExc.attributeError

/-- The accumulation loop of `cartCheckout` (src/main.py lines 393-396):
`for item, qty in products.items(): netTotal += db.getProduct(item).price * qty`,
threading the running total and propagating a raised exception. -/
def checkoutTotal (data : List (Int × Product)) : CartMap → Int → Except PyExc Int
  | [], acc => Except.ok acc
  | (item, qty) :: rest, acc =>
    match priceAttr (getProduct data item) with
    | Except.error e => Except.error e
    | Except.ok p => checkoutTotal data rest (acc + p * qty)

/-! ### Session handling (src/main.py lines 231-276) -/

/-- `SessionHandler.ValidationDatabase.ValidationSchema` (lines 235-238). -/
structure Cred where
  email : String
  password : String
  isAdmin : Bool
deriving DecidableEq, Repr

/-- The match test of the login loop (line 264):
`cred.email == email and cred.password == password`. -/
def credMatch (email password : String) (cred : Cred) : Bool :=
  cred.email == email && cred.password == password

/-- The `for cred in self.database.credentials` loop of `SessionHandler.login`
(src/main.py lines 262-272).  `i` is the loop iteration index; `gen i` is the
token `urandom(8).hex()` produces at iteration `i` (a fresh token value is
generated on every iteration, before the match test). -/
def loginScan (email password : String) (gen : Nat → String)
    (users admins : List String) :
    List Cred → Nat → String × List String × List String
  | [], _ => ("", users, admins)
  | cred :: rest, i =>
    let sessionToken := gen i
    if credMatch email password cred then
      if cred.isAdmin = false then (sessionToken, sessionToken :: users, admins)
      else (sessionToken, users, sessionToken :: admins)
    else loginScan email password gen users admins rest (i + 1)

/-- The combined process-wide mutable state: the `sessions` (`SessionHandler`)
and `db` (`Database`) globals of src/main.py lines 275-277.  Python sets are
modelled as lists (membership is all the code observes); Python dicts as
association lists. -/
structure ServerState where
  userTokens : List String
  adminTokens : List String
  carts : List (String × CartMap)
  creds : List Cred
  modes : List (String × String)
  productDB : List (Int × Product)
  categoryDB : List (Int × Category)
deriving DecidableEq

/-- `SessionHandler.login` (src/main.py lines 252-272): scans the credential
list and on the first match inserts the freshly generated token into the
user or admin token set. -/
def login (s : ServerState) (email password : String) (gen : Nat → String) :
    String × ServerState :=
  let r := loginScan email password gen s.userTokens s.adminTokens s.creds 0
  (r.1, { s with userTokens := r.2.1, adminTokens := r.2.2 })

/-! ### Route responses -/

/-- The structured JSON payloads the routes return, plus `exception e` for an
exception escaping the route handler to the transport layer. -/
inductive Resp where
  | authError
  | sessionIDResp (sessionID : String)
  | userNotFound
  | notAuthorized
  | snapshot (items : List (Int × Int))
  | unknownPaymentMode (known : List (String × String))
  | noAmountPayable
  | paymentRedirect (netTotal : Int) (display : String)
  | exception (e : PyExc)
deriving DecidableEq, Repr

/-- `true` iff the route produced a structured response payload (anything but
an escaped exception). -/
def isStructured : Resp → Bool
  | Resp.exception _ => false
  | _ => true

/-! ### Routes (src/main.py lines 283-404) -/

/-- Route `GET /login/{email}/{password}` (src/main.py lines 293-299): calls
`sessions.login`; an empty token is the failure signal; on success a fresh
empty `Cart` is bound to the token. -/
def getSessionID (s : ServerState) (email password : String)
    (gen : Nat → String) : ServerState × Resp :=
  match login s email password gen with
  | (sessionID, s1) =>
    if sessionID = "" then (s1, Resp.authError)
    else ({ s1 with carts := dictSet s1.carts sessionID [] },
      Resp.sessionIDResp sessionID)

/-- Route `GET /cart/get/{sessionID}` (src/main.py lines 347-352): only the
`carts` dict is consulted — no role-set check. -/
def cartGet (s : ServerState) (sessionID : String) : ServerState × Resp :=
  match dictLookup s.carts sessionID with
  | some c => (s, Resp.snapshot (getCart c))
  | none => (s, Resp.userNotFound)

/-- Route `POST /cart/add/` (src/main.py lines 361-371): dispatches on the
sign of `quantity`; a `quantity < 0` delegates to `removeItem` with the
magnitude, and nothing catches the exceptions `removeItem` raises. -/
def cartAdd (s : ServerState) (sessionID : String) (product quantity : Int) :
    ServerState × Resp :=
  if sessionID ∉ s.userTokens then (s, Resp.userNotFound)
  else if 0 ≤ quantity then
    match dictLookup s.carts sessionID with
    | none => (s, Resp.exception PyExc.keyError)
    | some c =>
      let c2 := addItem c product quantity
      ({ s with carts := dictSet s.carts sessionID c2 }, Resp.snapshot (getCart c2))
  else
    match dictLookup s.carts sessionID with
    | none => (s, Resp.exception PyExc.keyError)
    | some c =>
      match removeItem c product (-quantity) with
      | (Except.error e, _) => (s, Resp.exception e)
      | (Except.ok _, c2) =>
        ({ s with carts := dictSet s.carts sessionID c2 }, Resp.snapshot (getCart c2))

/-- Route `GET /cart/checkout/{mode}/{sessionID}` (src/main.py lines 382-404):
role check, payment-mode check, total accumulation, then the zero /
non-zero dichotomy.  No branch writes any state. -/
def cartCheckout (s : ServerState) (mode sessionID : String) :
    ServerState × Resp :=
  if sessionID ∉ s.userTokens then (s, Resp.notAuthorized)
  else
    match dictLookup s.modes mode with
    | none => (s, Resp.unknownPaymentMode s.modes)
    | some display =>
      match dictLookup s.carts sessionID with
      | none => (s, Resp.exception PyExc.keyError)
      | some c =>
        match checkoutTotal s.productDB c 0 with
        | Except.error e => (s, Resp.exception e)
        | Except.ok netTotal =>
          if netTotal = 0 then (s, Resp.noAmountPayable)
          else (s, Resp.paymentRedirect netTotal display)

/-! ### Login characterisation -/

theorem login_eq_scan (s : ServerState) (email password : String)
    (gen : Nat → String) :
    login s email password gen =
      ((loginScan email password gen s.userTokens s.adminTokens s.creds 0).1,
       { s with
          userTokens :=
            (loginScan email password gen s.userTokens s.adminTokens s.creds 0).2.1,
          adminTokens :=
            (loginScan email password gen s.userTokens s.adminTokens s.creds 0).2.2 }) :=
  rfl

theorem loginScan_find_none (email password : String) (gen : Nat → String)
    (users admins : List String) :
    ∀ (creds : List Cred) (i : Nat),
      creds.find? (credMatch email password) = none →
      loginScan email password gen users admins creds i = ("", users, admins) := by
  intro creds
  induction creds with
  | nil =>
    intro i _
    rfl
  | cons cred rest ih =>
    intro i hfind
    rw [List.find?_eq_none] at hfind
    have hm : credMatch email password cred = false :=
      Bool.eq_false_iff.mpr (hfind cred (List.mem_cons_self _ _))
    simp only [loginScan, hm, Bool.false_eq_true, if_false]
    apply ih
    rw [List.find?_eq_none]
    intro x hx
    exact hfind x (List.mem_cons_of_mem _ hx)

theorem loginScan_find_some (email password : String) (gen : Nat → String)
    (users admins : List String) :
    ∀ (creds : List Cred) (i : Nat) (cred : Cred),
      creds.find? (credMatch email password) = some cred →
      loginScan email password gen users admins creds i =
        (gen (i + creds.findIdx (credMatch email password)),
         if cred.isAdmin then users
           else gen (i + creds.findIdx (credMatch email password)) :: users,
         if cred.isAdmin then gen (i + creds.findIdx (credMatch email password)) :: admins
           else admins) := by
  intro creds
  induction creds with
  | nil =>
    intro i cred h
    simp at h
  | cons c0 rest ih =>
    intro i cred h
    by_cases hm : credMatch email password c0 = true
    · rw [List.find?_cons_of_pos _ hm] at h
      injection h with h
      subst h
      cases hAdmin : c0.isAdmin <;>
        simp [loginScan, hm, hAdmin, List.findIdx_cons]
    · have hm' : credMatch email password c0 = false := Bool.eq_false_iff.mpr hm
      rw [List.find?_cons_of_neg _ (by simp [hm'])] at h
      have hrec := ih (i + 1) cred h
      have harg : i + 1 + rest.findIdx (credMatch email password)
          = i + ((c0 :: rest).findIdx (credMatch email password)) := by
        rw [List.findIdx_cons, hm']
        simp only [cond_false]
        omega
      rw [harg] at hrec
      simp only [loginScan, hm', Bool.false_eq_true, if_false]
      exact hrec

/-- Claim C6: `SessionHandler.login` scans the credential records in list
order; at the first record whose email and password both match it returns the
token generated at that iteration (which is nonempty, the generator producing
`urandom(8).hex()` values), adding it to the user token set when `isAdmin` is
false and to the admin token set when it is true, ignoring later matching
records; with no matching record it returns the empty string (a failure
signal, not an exception — the embedding is a total function). -/
theorem login_first_match_spec (s : ServerState) (email password : String)
    (gen : Nat → String) (hgen : ∀ i, gen i ≠ "") :
    (∀ cred, s.creds.find? (credMatch email password) = some cred →
      (login s email password gen).1
          = gen (s.creds.findIdx (credMatch email password)) ∧
      (login s email password gen).1 ≠ "" ∧
      (cred.isAdmin = false →
        (login s email password gen).2.userTokens
            = (login s email password gen).1 :: s.userTokens ∧
        (login s email password gen).2.adminTokens = s.adminTokens) ∧
      (cred.isAdmin = true →
        (login s email password gen).2.adminTokens
            = (login s email password gen).1 :: s.adminTokens ∧
        (login s email password gen).2.userTokens = s.userTokens)) ∧
    (s.creds.find? (credMatch email password) = none →
      (login s email password gen).1 = "") := by
  constructor
  · intro cred hfind
    have h := loginScan_find_some email password gen s.userTokens s.adminTokens
      s.creds 0 cred hfind
    rw [login_eq_scan, h]
    refine ⟨by simp, by simpa using hgen _, ?_, ?_⟩
    · intro hAdmin
      simp [hAdmin]
    · intro hAdmin
      simp [hAdmin]
  · intro hfind
    have h := loginScan_find_none email password gen s.userTokens s.adminTokens
      s.creds 0 hfind
    rw [login_eq_scan, h]

/-- A model of the `urandom(8).hex()` token stream used by the witnesses:
every generated token is the (nonempty) string "T". -/
def tokenStream : Nat → String := fun _ => "T"

theorem tokenStream_ne_empty : ∀ i, tokenStream i ≠ "" :=
  fun _ => (by decide : ("T" : String) ≠ "")

/-- Credential configuration used by the `login` witnesses. -/
def loginStateU : ServerState :=
  { userTokens := [], adminTokens := [], carts := [],
    creds := [{ email := "a@x.com", password := "pw", isAdmin := false },
              { email := "root@x.com", password := "rootpw", isAdmin := true }],
    modes := [], productDB := [], categoryDB := [] }

/-- Witness for `login_first_match_spec`: logging in with the configured user
credentials yields token "T", which lands in the user set and not in the
admin set. -/
theorem login_first_match_spec_witness :
    (∀ i, tokenStream i ≠ "") ∧
    (login loginStateU "a@x.com" "pw" tokenStream).1 = "T" ∧
    (login loginStateU "a@x.com" "pw" tokenStream).2.userTokens = ["T"] ∧
    (login loginStateU "a@x.com" "pw" tokenStream).2.adminTokens = [] := by
  have h := (login_first_match_spec loginStateU "a@x.com" "pw" tokenStream
      tokenStream_ne_empty).1
    { email := "a@x.com", password := "pw", isAdmin := false } rfl
  refine ⟨tokenStream_ne_empty, ?_, ?_, ?_⟩
  · exact h.1
  · have h2 := (h.2.2.1 rfl).1
    rw [h.1] at h2
    exact h2
  · exact (h.2.2.1 rfl).2

/-- Claim C9: when `SessionHandler.login` returns the empty string (no
credential record matched — generated tokens are never empty), the session
registry is left completely unchanged, even though a candidate token is
generated on every iteration of the scan. -/
theorem login_no_match_frame (s : ServerState) (email password : String)
    (gen : Nat → String) (hgen : ∀ i, gen i ≠ "")
    (h : (login s email password gen).1 = "") :
    (login s email password gen).2 = s := by
  cases hfind : s.creds.find? (credMatch email password) with
  | some cred =>
    exfalso
    have hs := loginScan_find_some email password gen s.userTokens s.adminTokens
      s.creds 0 cred hfind
    rw [login_eq_scan, hs] at h
    exact hgen _ h
  | none =>
    have hs := loginScan_find_none email password gen s.userTokens s.adminTokens
      s.creds 0 hfind
    rw [login_eq_scan, hs]

/-- State used by the `login_no_match_frame` witness. -/
def loginStateN : ServerState :=
  { userTokens := ["old"], adminTokens := [], carts := [],
    creds := [{ email := "a@x.com", password := "pw", isAdmin := false }],
    modes := [], productDB := [], categoryDB := [] }

/-- Witness for `login_no_match_frame`: a wrong password returns the empty
token and leaves the registry exactly as it was. -/
theorem login_no_match_frame_witness :
    (∀ i, tokenStream i ≠ "") ∧
    (login loginStateN "a@x.com" "wrong" tokenStream).1 = "" ∧
    (login loginStateN "a@x.com" "wrong" tokenStream).2 = loginStateN :=
  ⟨tokenStream_ne_empty, rfl,
    login_no_match_frame loginStateN "a@x.com" "wrong" tokenStream
      tokenStream_ne_empty rfl⟩

/-! ### Claims about the routes -/

/-- Claim C7: a `cartCheckout` call mutates no state: whatever its outcome,
every component of the process state (cart contents, token sets, the
token-to-cart mapping, the catalogue databases, the payment mode set) is
identical to its value before the call. -/
theorem cartCheckout_state_frame (s : ServerState) (mode sessionID : String) :
    (cartCheckout s mode sessionID).1 = s := by
  unfold cartCheckout
  split
  · rfl
  · split
    · rfl
    · split
      · rfl
      · split
        · rfl
        · split <;> rfl

/-- State exhibiting the missing-catalogue-entry crash: user token "tokE",
payment mode "upi" configured, cart `{99: 1}`, product 99 absent from the
product database. -/
def checkoutStateE : ServerState :=
  { userTokens := ["tokE"], adminTokens := [], carts := [("tokE", [(99, 1)])],
    creds := [], modes := [("upi", "UPI")], productDB := [], categoryDB := [] }

/-- Claim C3 (code bug): with product 99 in the cart but absent from the
catalogue, checkout does not contribute a default price of 0 — it raises
`AttributeError` and the exception escapes the route, because
`Database.getProduct` (src/main.py line 176) assigns the `Product` *class*
(the parentheses of a constructor call are missing) instead of a default
instance, and `.price` does not exist on the pydantic model class.  The
claim, `getProduct`'s own docstring and declared return type, and the
`price: int = 0` field default all describe the clearly intended default
instance. -/
theorem cartCheckout_missing_product_raises :
    cartCheckout checkoutStateE "upi" "tokE"
      = (checkoutStateE, Resp.exception PyExc.attributeError) := by decide

/-- State for the C4 counterexample: valid user token "tokD", configured mode
"card", cart `{77: 1}`, product 77 absent from the catalogue. -/
def checkoutStateD : ServerState :=
  { userTokens := ["tokD"], adminTokens := [], carts := [("tokD", [(77, 1)])],
    creds := [], modes := [("card", "Card")], productDB := [], categoryDB := [] }

/-- Claim C4 (counterexample): at this input the claim's computed total
(missing product contributing its default price 0) is 0, so the claim demands
the "nothing payable" outcome; the code instead lets `AttributeError` escape,
returning neither the "nothing payable" outcome nor a confirmation. -/
theorem cartCheckout_dichotomy_counterexample :
    (cartCheckout checkoutStateD "card" "tokD").2
        = Resp.exception PyExc.attributeError ∧
    Resp.exception PyExc.attributeError ≠ Resp.noAmountPayable ∧
    isStructured (Resp.exception PyExc.attributeError) = false := by decide

/-- Claim C4 (amended): for a token in the user set with a bound cart and a
configured payment mode, provided the total accumulation completes without
raising (it returns `Except.ok total`), checkout returns the "nothing
payable" outcome exactly when the computed total is 0 (in particular
whenever the cart is empty), and otherwise the confirmation carrying the
computed total and the display name of the chosen payment mode. -/
theorem cartCheckout_total_dichotomy (s : ServerState)
    (mode sessionID display : String) (c : CartMap) (total : Int)
    (hu : sessionID ∈ s.userTokens)
    (hm : dictLookup s.modes mode = some display)
    (hc : dictLookup s.carts sessionID = some c)
    (ht : checkoutTotal s.productDB c 0 = Except.ok total) :
    ((cartCheckout s mode sessionID).2 = Resp.noAmountPayable ↔ total = 0) ∧
    (total ≠ 0 →
      (cartCheckout s mode sessionID).2 = Resp.paymentRedirect total display) ∧
    (c = [] → (cartCheckout s mode sessionID).2 = Resp.noAmountPayable) := by
  have hresp : (cartCheckout s mode sessionID).2
      = if total = 0 then Resp.noAmountPayable
        else Resp.paymentRedirect total display := by
    unfold cartCheckout
    rw [if_neg (not_not_intro hu)]
    simp only [hm, hc, ht]
    by_cases h0 : total = 0 <;> simp [h0]
  refine ⟨?_, ?_, ?_⟩
  · rw [hresp]
    by_cases h0 : total = 0
    · simp [h0]
    · simp [h0]
  · intro h0
    rw [hresp, if_neg h0]
  · intro hc0
    subst hc0
    have h0 : total = 0 := by
      have hz : (Except.ok 0 : Except PyExc Int) = Except.ok total := ht
      injection hz with hz
      exact hz.symm
    rw [hresp, if_pos h0]

/-- State for the C4 witness: user token "tokC", mode "upi" with display name
"UPI", cart `{1: 2}`, product 1 priced 10. -/
def checkoutStateC : ServerState :=
  { userTokens := ["tokC"], adminTokens := [], carts := [("tokC", [(1, 2)])],
    creds := [], modes := [("upi", "UPI")],
    productDB := [(1, { id := 1, name := "pen", category := 1, price := 10 })],
    categoryDB := [] }

/-- Witness for `cartCheckout_total_dichotomy`: the total of `{1: 2}` at price
10 is 20, and checkout confirms 20 to be paid via "UPI". -/
theorem cartCheckout_total_dichotomy_witness :
    "tokC" ∈ checkoutStateC.userTokens ∧
    dictLookup checkoutStateC.modes "upi" = some "UPI" ∧
    dictLookup checkoutStateC.carts "tokC" = some [(1, 2)] ∧
    checkoutTotal checkoutStateC.productDB [(1, 2)] 0 = Except.ok 20 ∧
    (cartCheckout checkoutStateC "upi" "tokC").2 = Resp.paymentRedirect 20 "UPI" := by
  refine ⟨by decide, by decide, by decide, rfl, ?_⟩
  exact (cartCheckout_total_dichotomy checkoutStateC "upi" "tokC" "UPI" [(1, 2)] 20
    (by decide) (by decide) (by decide) rfl).2.1 (by decide)

/-- State for the C2 counterexample: user token "tokA" with an empty bound
cart. -/
def cartStateA : ServerState :=
  { userTokens := ["tokA"], adminTokens := [], carts := [("tokA", [])],
    creds := [], modes := [], productDB := [], categoryDB := [] }

/-- Claim C2 (counterexample): `cartAdd` with a valid user token and quantity
−1 naming product 7, which is absent from the cart, dispatches to
`removeItem(7, 1)`; its `KeyError` is not caught anywhere in the route
(src/main.py lines 361-371), so the exception escapes to the transport layer
instead of producing a structured error payload. -/
theorem cartAdd_exception_counterexample :
    (cartAdd cartStateA "tokA" 7 (-1)).2 = Resp.exception PyExc.keyError ∧
    isStructured (cartAdd cartStateA "tokA" 7 (-1)).2 = false := by decide

/-- Claim C2 (amended): for a token with a bound cart, `cartAdd` returns the
structured "User Not Found" payload when the token is not in the user set and
a structured cart snapshot for every non-negative quantity; but for a
negative quantity it returns exactly what `removeItem` does — a structured
snapshot when the removal succeeds, and an escaped exception (`KeyError` for
a product absent from the cart, `ValueError` when the magnitude exceeds the
stored quantity) when it raises. -/
theorem cartAdd_boundary_behavior (s : ServerState) (sessionID : String)
    (product quantity : Int) (c : CartMap)
    (hc : dictLookup s.carts sessionID = some c) :
    (sessionID ∉ s.userTokens →
      cartAdd s sessionID product quantity = (s, Resp.userNotFound)) ∧
    (sessionID ∈ s.userTokens → 0 ≤ quantity →
      (cartAdd s sessionID product quantity).2
          = Resp.snapshot (getCart (addItem c product quantity))) ∧
    (sessionID ∈ s.userTokens → quantity < 0 →
      (∀ e, (removeItem c product (-quantity)).1 = Except.error e →
        cartAdd s sessionID product quantity = (s, Resp.exception e)) ∧
      ((removeItem c product (-quantity)).1 = Except.ok () →
        (cartAdd s sessionID product quantity).2
            = Resp.snapshot (getCart (removeItem c product (-quantity)).2))) := by
  refine ⟨?_, ?_, ?_⟩
  · intro hnu
    unfold cartAdd
    rw [if_pos hnu]
  · intro hu hq
    unfold cartAdd
    rw [if_neg (not_not_intro hu), if_pos hq]
    simp only [hc]
  · intro hu hq
    have hq2 : ¬ 0 ≤ quantity := not_le.mpr hq
    constructor
    · intro e he
      unfold cartAdd
      rw [if_neg (not_not_intro hu), if_neg hq2]
      simp only [hc]
      rcases hrm : removeItem c product (-quantity) with ⟨out, c2⟩
      rw [hrm] at he
      cases out with
      | error e2 =>
        simp only at he
        injection he with he
        subst he
        simp [hrm]
      | ok u => simp at he
    · intro hok
      unfold cartAdd
      rw [if_neg (not_not_intro hu), if_neg hq2]
      simp only [hc]
      rcases hrm : removeItem c product (-quantity) with ⟨out, c2⟩
      rw [hrm] at hok
      cases out with
      | error e2 => simp at hok
      | ok u => rfl

/-- State for the C2 witness: user token "tokB" with bound cart `{4: 5}`. -/
def cartStateB : ServerState :=
  { userTokens := ["tokB"], adminTokens := [], carts := [("tokB", [(4, 5)])],
    creds := [], modes := [], productDB := [], categoryDB := [] }

/-- Witness for `cartAdd_boundary_behavior`: adding one unit of product 4
returns the structured snapshot of the mutated cart. -/
theorem cartAdd_boundary_behavior_witness :
    dictLookup cartStateB.carts "tokB" = some [(4, 5)] ∧
    (cartAdd cartStateB "tokB" 4 1).2
        = Resp.snapshot (getCart (addItem [(4, 5)] 4 1)) :=
  ⟨rfl, (cartAdd_boundary_behavior cartStateB "tokB" 4 1 [(4, 5)] rfl).2.1
    (by decide) (by decide)⟩

/-- Claim C10: the `cartGet` route performs no role-set check: it returns the
cart snapshot for every token with a bound cart — its response is invariant
under arbitrary changes of the user/admin token sets, so admin tokens are
served too — and returns the structured "User Not Found" payload exactly when
the token has no bound cart; moreover every successful login reply binds a
fresh empty cart to the returned token (regardless of role). -/
theorem cartGet_no_role_check (s : ServerState) (sessionID : String) :
    (∀ c, dictLookup s.carts sessionID = some c →
      (cartGet s sessionID).2 = Resp.snapshot (getCart c)) ∧
    ((cartGet s sessionID).2 = Resp.userNotFound ↔
      dictLookup s.carts sessionID = none) ∧
    (∀ users admins,
      (cartGet { s with userTokens := users, adminTokens := admins } sessionID).2
        = (cartGet s sessionID).2) ∧
    (∀ email password gen sessionID2 s2,
      getSessionID s email password gen = (s2, Resp.sessionIDResp sessionID2) →
      dictLookup s2.carts sessionID2 = some []) := by
  refine ⟨?_, ?_, ?_, ?_⟩
  · intro c hc
    unfold cartGet
    simp only [hc]
  · unfold cartGet
    cases hc : dictLookup s.carts sessionID with
    | none => simp
    | some c => simp
  · intro users admins
    unfold cartGet
    have hcs : ({ s with userTokens := users, adminTokens := admins } :
        ServerState).carts = s.carts := rfl
    rw [hcs]
    cases dictLookup s.carts sessionID <;> rfl
  · intro email password gen sessionID2 s2 h
    rcases hl : login s email password gen with ⟨tok, s1⟩
    have hdef : getSessionID s email password gen
        = (if tok = "" then (s1, Resp.authError)
           else ({ s1 with carts := dictSet s1.carts tok [] },
             Resp.sessionIDResp tok)) := by
      unfold getSessionID
      rw [hl]
    rw [hdef] at h
    by_cases htok : tok = ""
    · rw [if_pos htok] at h
      injection h with h1 h2
      exact Resp.noConfusion h2
    · rw [if_neg htok] at h
      injection h with h1 h2
      injection h2 with h2
      subst h2
      rw [← h1]
      exact dictLookup_dictSet_self _ _ _

/-- State for the C10 witness: the token "tokG" is in the *admin* set only,
with a bound cart `{1: 2}`. -/
def cartStateG : ServerState :=
  { userTokens := [], adminTokens := ["tokG"], carts := [("tokG", [(1, 2)])],
    creds := [], modes := [], productDB := [], categoryDB := [] }

/-- Witness for `cartGet_no_role_check`: the admin-classified token "tokG"
still receives its cart snapshot — no role check is applied. -/
theorem cartGet_no_role_check_witness :
    dictLookup cartStateG.carts "tokG" = some [(1, 2)] ∧
    (cartGet cartStateG "tokG").2 = Resp.snapshot (getCart [(1, 2)]) :=
  ⟨rfl, (cartGet_no_role_check cartStateG "tokG").1 [(1, 2)] rfl⟩

end Market
